import Mathlib

/-!
Verification development for the excel-process repository.

The definitions below are a shallow embedding of the Python sources:

* `src/models/salary_excel_writer.py`   (salary computation + template filling)
* `src/config/salary_settings.py`      (rate tables and role constants)
* `src/models/operation_table_reader.py` (attendance / manual-fee side table)
* `src/models/salary_excel_reader.py`  (salary source extraction)
* `src/models/excel_reader.py`         (generic region scanner)
* `src/models/excel_writer.py`         (merged-cell safe writes)
* `src/controllers/salary_processor.py` (role resolution, batch orchestration)

Python `float` arithmetic is embedded as exact rational arithmetic (`ℚ`);
all the verified identities are the algebraic identities the code computes,
independent of rounding.  Python `str.strip` is embedded as whitespace
trimming on the character list, and `str`/`dict` lookups as `Option`-valued
functions.
-/

namespace ExcelProcess

/-! ## Role constants — `src/config/salary_settings.py`

`JOB_SPECIFIC_CONFIG` maps each of the three roles to its default base
salary and its special allowance (lines 209–222). -/

/-- One entry of `JOB_SPECIFIC_CONFIG`. -/
structure JobSpecific where
  defaultBaseSalary : ℚ
  specialAllowance : ℚ
deriving DecidableEq

/-- Embeds `JOB_SPECIFIC_CONFIG` from `salary_settings.py` lines 209–222. -/
def JOB_SPECIFIC_CONFIG (jobType : String) : Option JobSpecific :=
  if jobType = "服务总监" then some ⟨8000, 1000⟩
  else if jobType = "服务老师" then some ⟨5000, 500⟩
  else if jobType = "操作老师" then some ⟨5000, 0⟩
  else none

/-- Embeds `SALARY_CONFIG['job_types']` (`salary_settings.py` line 12). -/
def jobTypes : List String := ["服务总监", "服务老师", "操作老师"]

/-! ## User configuration — the slice of `DEFAULT_SALARY_CONFIG` /
`self.user_config` read by `_calculate_salary_data`.

Missing dictionary keys are `none`; `dict.get(k, d)` becomes `Option.getD`.
`job_specific_config[job_type]` being absent or an empty dict are
indistinguishable to the code (`if job_specific_data and ...`), so both are
embedded as `none`. -/

/-- A non-empty per-role entry of the user `job_specific_config` dict. -/
structure UserJobSpecific where
  base_salary : Option ℚ
  floating_salary : Option ℚ

/-- The fields of `self.user_config` consumed by `_calculate_salary_data`. -/
structure UserConfig where
  /-- Embeds `base_salary.special_rates[name]` -/
  baseSpecialRates : String → Option ℚ
  /-- Embeds `floating_salary.special_rates[name]` -/
  floatingSpecialRates : String → Option ℚ
  /-- Embeds `floating_salary.default` -/
  floatingDefault : Option ℚ
  /-- Embeds `job_specific_config[job_type]` (`none` for absent or empty) -/
  jobSpecificConfig : String → Option UserJobSpecific
  /-- Embeds `commission_config.expert_commission.default_rate` -/
  expertDefaultRate : Option ℚ
  /-- Embeds `commission_config.service_commission.default_rate` -/
  serviceDefaultRate : Option ℚ
  /-- Embeds `commission_config.operation_commission.default_rate` -/
  operationDefaultRate : Option ℚ
  /-- Embeds `commission_rates.service_rate` (backward-compat fallback) -/
  serviceRateCompat : Option ℚ
  /-- Embeds `commission_rates.operation_rate` (backward-compat fallback) -/
  operationRateCompat : Option ℚ
  /-- Embeds `other_config.training_allowance` -/
  trainingAllowanceRate : Option ℚ
  /-- Embeds `manual_fees.body_rate` -/
  bodyRate : Option ℚ
  /-- Embeds `manual_fees.face_rate` -/
  faceRate : Option ℚ
  /-- Embeds `other_config.social_security_rate` -/
  socialSecurityRate : Option ℚ
  /-- Embeds `other_config.late_deduction_rate` -/
  lateDeductionRate : Option ℚ

/-- Embeds `DEFAULT_SALARY_CONFIG` (`salary_settings.py` lines 144–206): empty
special-rate dicts, no `job_specific_config` key, and the documented
default rates. -/
def defaultUserConfig : UserConfig where
  baseSpecialRates := fun _ => none
  floatingSpecialRates := fun _ => none
  floatingDefault := some 0
  jobSpecificConfig := fun _ => none
  expertDefaultRate := some 1.2
  serviceDefaultRate := some 1.5
  operationDefaultRate := some 0.8
  serviceRateCompat := some 1.5
  operationRateCompat := some 0.8
  trainingAllowanceRate := some 200
  bodyRate := some 60
  faceRate := some 80
  socialSecurityRate := some 505.26
  lateDeductionRate := some 20

/-- The per-employee slice of `operation_data` consumed by
`_calculate_salary_data` and `_read_attendance_data`. -/
structure OperationData where
  body_count : ℚ
  face_count : ℚ
  rest_days : ℚ
  actual_absent_days : ℚ
  late_count : ℚ
  training_days : ℚ
  work_days : ℚ
  personal_tax_amount : ℚ
deriving DecidableEq

/-- An all-zero `operation_data` entry (the default used when an employee
is missing from the operation table). -/
def zeroOperationData : OperationData :=
  ⟨0, 0, 0, 0, 0, 0, 0, 0⟩

/-- The dictionary built by `_calculate_salary_data`
(`salary_excel_writer.py` lines 487–694), one field per key. -/
structure Calculated where
  base_salary_quantity : ℚ
  base_salary_rate : ℚ
  base_salary : ℚ
  floating_salary_quantity : ℚ
  floating_salary_rate : ℚ
  floating_salary : ℚ
  expert_commission_quantity : ℚ
  expert_commission_rate : ℚ
  expert_commission : ℚ
  service_commission_quantity : ℚ
  service_commission_rate : ℚ
  service_commission : ℚ
  operation_commission_quantity : ℚ
  operation_commission_rate : ℚ
  operation_commission : ℚ
  training_allowance_quantity : ℚ
  training_allowance_rate : ℚ
  training_allowance : ℚ
  body_manual_fee_quantity : ℚ
  body_manual_fee_rate : ℚ
  body_manual_fee : ℚ
  face_manual_fee_quantity : ℚ
  face_manual_fee_rate : ℚ
  face_manual_fee : ℚ
  special_allowance : ℚ
  total_salary : ℚ
  absent_deduction_quantity : ℚ
  absent_deduction_rate : ℚ
  absent_deduction : ℚ
  late_deduction_quantity : ℚ
  late_deduction_rate : ℚ
  late_deduction : ℚ
  social_security_quantity : ℚ
  social_security_rate : ℚ
  social_security : ℚ
  personal_tax_quantity : ℚ
  personal_tax_rate : ℚ
  personal_tax : ℚ
  total_deduction : ℚ
  net_salary : ℚ
deriving DecidableEq

/-- The straight-line body of `_calculate_salary_data`
(`salary_excel_writer.py` lines 529–687) once the base and floating rates
have been resolved.  `currentMonthDays` stands for
`calendar.monthrange(now.year, now.month)[1]` (lines 634–638). -/
def calculateSalaryCore (cfg : UserConfig) (jobType : String)
    (baseRate floatRate perf : ℚ) (op : OperationData)
    (currentMonthDays : ℕ) : Calculated :=
  let base_salary_quantity : ℚ := 1
  let base_salary := base_salary_quantity * baseRate
  let floating_salary_quantity : ℚ := 1
  let floating_salary := floating_salary_quantity * floatRate
  -- commissions are initialised to 0 and only the active role's line is set
  let expert_commission_quantity := if jobType = "服务总监" then perf else 0
  let expert_commission_rate :=
    if jobType = "服务总监" then cfg.expertDefaultRate.getD 1.2 else 0
  let expert_commission :=
    if jobType = "服务总监" then perf * (expert_commission_rate / 100) else 0
  let service_commission_quantity := if jobType = "服务老师" then perf else 0
  let service_commission_rate :=
    if jobType = "服务老师" then
      cfg.serviceDefaultRate.getD (cfg.serviceRateCompat.getD 1.5)
    else 0
  let service_commission :=
    if jobType = "服务老师" then perf * (service_commission_rate / 100) else 0
  let operation_commission_quantity := if jobType = "操作老师" then perf else 0
  let operation_commission_rate :=
    if jobType = "操作老师" then
      cfg.operationDefaultRate.getD (cfg.operationRateCompat.getD 0.8)
    else 0
  let operation_commission :=
    if jobType = "操作老师" then perf * (operation_commission_rate / 100) else 0
  let training_allowance_rate := cfg.trainingAllowanceRate.getD 0
  let training_allowance_quantity := op.training_days
  let training_allowance := training_allowance_quantity * training_allowance_rate
  let body_manual_fee_quantity := op.body_count
  let body_manual_fee_rate := cfg.bodyRate.getD 0
  let body_manual_fee := body_manual_fee_quantity * body_manual_fee_rate
  let face_manual_fee_quantity := op.face_count
  let face_manual_fee_rate := cfg.faceRate.getD 0
  let face_manual_fee := face_manual_fee_quantity * face_manual_fee_rate
  let special_allowance :=
    ((JOB_SPECIFIC_CONFIG jobType).map JobSpecific.specialAllowance).getD 0
  let total_salary :=
    base_salary + floating_salary + expert_commission + service_commission +
      operation_commission + training_allowance + body_manual_fee +
      face_manual_fee + special_allowance
  let absent_days := op.actual_absent_days
  let absent_deduction_rate :=
    if 0 < currentMonthDays then base_salary / (currentMonthDays : ℚ) else 0
  let absent_deduction_quantity := if 0 < absent_days then -absent_days else 0
  let absent_deduction := absent_deduction_quantity * absent_deduction_rate
  let late_deduction_rate := cfg.lateDeductionRate.getD 20
  let late_deduction_quantity := if 0 < op.late_count then -op.late_count else 0
  let late_deduction := late_deduction_quantity * late_deduction_rate
  let social_security_quantity : ℚ := -1
  let social_security_rate := cfg.socialSecurityRate.getD 505.26
  let social_security := social_security_quantity * social_security_rate
  let personal_tax_quantity : ℚ := -1
  let personal_tax_rate := op.personal_tax_amount
  let personal_tax := personal_tax_quantity * personal_tax_rate
  let total_deduction :=
    absent_deduction + late_deduction + social_security + personal_tax
  { base_salary_quantity, base_salary_rate := baseRate, base_salary,
    floating_salary_quantity, floating_salary_rate := floatRate, floating_salary,
    expert_commission_quantity, expert_commission_rate, expert_commission,
    service_commission_quantity, service_commission_rate, service_commission,
    operation_commission_quantity, operation_commission_rate, operation_commission,
    training_allowance_quantity, training_allowance_rate, training_allowance,
    body_manual_fee_quantity, body_manual_fee_rate, body_manual_fee,
    face_manual_fee_quantity, face_manual_fee_rate, face_manual_fee,
    special_allowance, total_salary,
    absent_deduction_quantity, absent_deduction_rate, absent_deduction,
    late_deduction_quantity, late_deduction_rate, late_deduction,
    social_security_quantity, social_security_rate, social_security,
    personal_tax_quantity, personal_tax_rate, personal_tax,
    total_deduction, net_salary := total_salary + total_deduction }

/-- The default base salary used when no user override exists:
`job_config.get('default_base_salary', 5000)` (line 526). -/
def jobDefaultBaseSalary (jobType : String) : ℚ :=
  ((JOB_SPECIFIC_CONFIG jobType).map JobSpecific.defaultBaseSalary).getD 5000

/-- Embeds `_calculate_salary_data` (`salary_excel_writer.py` lines 487–694).

The local `job_specific_data` is assigned only inside the
`if base_salary_rate is None:` branch (lines 519–521); when the employee
has a special base rate but no special floating rate, line 539 reads the
unassigned name and the whole computation dies with a `NameError` that the
enclosing `except` swallows, returning a partial dictionary.  That path is
embedded as `.error`. -/
def calculateSalaryData (cfg : UserConfig) (jobType employeeName : String)
    (perf : ℚ) (op : OperationData) (currentMonthDays : ℕ) :
    Except String Calculated :=
  match cfg.baseSpecialRates employeeName with
  | some baseRate =>
    -- `job_specific_data` was never assigned on this path
    match cfg.floatingSpecialRates employeeName with
    | some floatRate =>
      .ok (calculateSalaryCore cfg jobType baseRate floatRate perf op
        currentMonthDays)
    | none => .error "NameError: name 'job_specific_data' is not defined"
  | none =>
    let jsd := cfg.jobSpecificConfig jobType
    let baseRate :=
      match jsd with
      | some entry =>
        match entry.base_salary with
        | some v => v
        | none => jobDefaultBaseSalary jobType
      | none => jobDefaultBaseSalary jobType
    let floatRate :=
      match cfg.floatingSpecialRates employeeName with
      | some v => v
      | none =>
        match jsd with
        | some entry =>
          match entry.floating_salary with
          | some v => v
          | none => cfg.floatingDefault.getD 0
        | none => cfg.floatingDefault.getD 0
    .ok (calculateSalaryCore cfg jobType baseRate floatRate perf op
      currentMonthDays)

/-! ## Attendance rows — `src/models/operation_table_reader.py`

`_read_attendance_data` (lines 176–288) computes, for each data row of the
second worksheet, the stored attendance entry.  The rest/late/training/tax
inputs are the `_convert_to_number` of the corresponding cells
(arbitrary rationals here); `base_monthly_rest_days = 4` and
`current_month_holiday_days = 0` are hard-coded locals (lines 198–199). -/

/-- Embeds `base_monthly_rest_days` (line 198). -/
def baseMonthlyRestDays : ℚ := 4

/-- Embeds `current_month_holiday_days` (line 199). -/
def currentMonthHolidayDays : ℚ := 0

/-- The attendance entry stored for one row
(`operation_table_reader.py` lines 236–274). -/
def readAttendanceRow (currentMonthDays : ℕ) (rest late training tax : ℚ) :
    OperationData :=
  { body_count := 0
    face_count := 0
    rest_days := rest
    actual_absent_days := rest - baseMonthlyRestDays - currentMonthHolidayDays
    late_count := late
    training_days := training
    work_days := max 0 ((currentMonthDays : ℚ) - rest)
    personal_tax_amount := tax }

/-! ## Value normalisation — `_convert_to_number`

`src/models/salary_excel_reader.py` lines 236–259 and
`src/models/operation_table_reader.py` lines 498–521 are identical:
remove ASCII commas and ASCII spaces, strip, then `float(...)`, with any
failure normalising to `0.0`. -/

/-- A raw cell scalar as seen by the readers (`openpyxl` cell values are
numbers or strings; `None` is `Option.none` at the call sites). -/
inductive CellScalar where
  | num (q : ℚ)
  | str (s : String)
deriving DecidableEq

/-- Python `s.replace(c, '')` for a single-character pattern. -/
def removeChar (c : Char) (s : String) : String :=
  ⟨s.data.filter (fun a => a ≠ c)⟩

/-- Python `s.strip()`: drop leading and trailing whitespace. -/
def pyStrip (s : String) : String :=
  ⟨((s.data.dropWhile Char.isWhitespace).reverse.dropWhile
      Char.isWhitespace).reverse⟩

/-- ASCII decimal digit test. -/
def isAsciiDigit (c : Char) : Bool := '0' ≤ c && c ≤ '9'

/-- Value of a list of ASCII digits, most significant first. -/
def digitsVal (l : List Char) : ℕ :=
  l.foldl (fun a c => 10 * a + (c.toNat - 48)) 0

/-- Modelled from Python's built-in `float(str)` parser (the callers only
ever rely on finite decimal literals): an optional sign followed by ASCII
digits with at most one decimal point and at least one digit.  Anything
else — in particular any string containing the CJK full-width comma
`，` — raises `ValueError`, embedded as `none`. -/
def pyFloat (s : String) : Option ℚ :=
  let signed : ℚ × List Char :=
    match s.data with
    | '-' :: r => (-1, r)
    | '+' :: r => (1, r)
    | l => (1, l)
  let sign := signed.1
  let l := signed.2
  match l.splitOn '.' with
  | [ip] =>
    if ip.all isAsciiDigit ∧ ip ≠ [] then some (sign * digitsVal ip) else none
  | [ip, fp] =>
    if (ip ++ fp).all isAsciiDigit ∧ ip ++ fp ≠ [] then
      some (sign * ((digitsVal ip : ℚ) + digitsVal fp / 10 ^ fp.length))
    else none
  | _ => none

/-- Embeds `_convert_to_number` (`salary_excel_reader.py` lines 236–259,
`operation_table_reader.py` lines 498–521): numbers pass through, strings
lose ASCII commas and spaces and are stripped before `float(...)`;
`None`, empty cleaned strings and parse failures all give `0.0`. -/
def convertToNumber (value : Option CellScalar) : ℚ :=
  match value with
  | none => 0
  | some (.num q) => q
  | some (.str s) =>
    let cleaned := pyStrip (removeChar ' ' (removeChar ',' s))
    if cleaned ≠ "" then (pyFloat cleaned).getD 0 else 0

/-! ## Merged-cell safe writes — `src/models/excel_writer.py`

`_safe_write_cell` (lines 99–139): the target of a write is the top-left
(anchor) cell of the first merged range containing the addressed cell, or
the addressed cell itself; the value is written and the cell is centred. -/

/-- A rectangular merged range (`openpyxl` `MergedCellRange` bounds). -/
structure MergedRange where
  min_row : ℕ
  max_row : ℕ
  min_col : ℕ
  max_col : ℕ
deriving DecidableEq

/-- Python `cell.coordinate in merged_range`. -/
def MergedRange.containsCell (r : MergedRange) (row col : ℕ) : Bool :=
  r.min_row ≤ row && row ≤ r.max_row && r.min_col ≤ col && col ≤ r.max_col

/-- The anchor (top-left) cell of a merged range. -/
def MergedRange.anchor (r : MergedRange) : ℕ × ℕ := (r.min_row, r.min_col)

/-- The state of one worksheet cell tracked by `_safe_write_cell`:
its value and whether centre alignment has been applied. -/
structure CellState (α : Type) where
  value : Option α
  centered : Bool

/-- A worksheet: cell state addressed by (row, column), 1-based. -/
def Sheet (α : Type) := ℕ × ℕ → CellState α

/-- In a well-formed worksheet, distinct merged ranges never share a cell. -/
def DisjointRanges (ranges : List MergedRange) : Prop :=
  ∀ r₁ ∈ ranges, ∀ r₂ ∈ ranges, ∀ row col,
    r₁.containsCell row col → r₂.containsCell row col → r₁ = r₂

/-- The write target resolved by `_safe_write_cell` (lines 113–126): the
anchor of the first merged range containing the cell, else the cell. -/
def resolveWriteTarget (ranges : List MergedRange) (row col : ℕ) : ℕ × ℕ :=
  match ranges.find? (fun r => r.containsCell row col) with
  | some r => r.anchor
  | none => (row, col)

/-- Embeds `_safe_write_cell` (lines 99–139): write `v` and centre alignment at
the resolved target cell. -/
def safeWriteCell {α : Type} (ranges : List MergedRange) (sheet : Sheet α)
    (row col : ℕ) (v : α) : Sheet α :=
  let target := resolveWriteTarget ranges row col
  fun p => if p = target then ⟨some v, true⟩ else sheet p

/-- The salary composer's direct writes: `_fill_salary_data`,
`_fill_employee_info` and `_fill_attendance_info`
(`salary_excel_writer.py` lines 722–892, 407–432, 434–485) assign
`worksheet[cell] = value` with no merge redirection.  Modelled from the
openpyxl runtime, which `_fill_salary_data` relies on: `worksheet[coord]`
yields a read-only `MergedCell` for every member of a merged range other
than its anchor, so assigning to such a coordinate raises
`AttributeError` instead of mutating the anchor; any other coordinate is
an ordinary cell and is mutated in place (value only, alignment
untouched). -/
def directWriteCell {α : Type} (ranges : List MergedRange) (sheet : Sheet α)
    (row col : ℕ) (v : α) : Except String (Sheet α) :=
  if ranges.any
      (fun r => r.containsCell row col && decide ((row, col) ≠ r.anchor)) then
    .error "AttributeError: 'MergedCell' object attribute 'value' is read-only"
  else
    .ok fun p =>
      if p = (row, col) then ⟨some v, (sheet p).centered⟩ else sheet p

/-! ## Region scanning — `src/models/excel_reader.py`

`_read_xlsx_data` (lines 215–309) walks rows `start_row ..
min(worksheet.max_row, start_row + max_rows - 1)`; a row whose trimmed
cell text in any configured field column equals an end marker stops the
scan before that row is emitted; otherwise empty-row skipping and the
emission test decide whether the row is kept.  Cell values are embedded as
their `str()` rendering (`Option String`), which is what both the marker
comparison and the emptiness tests consume. -/

/-- A grid of raw cell values: `none` is an empty cell. -/
def Grid := ℕ → ℕ → Option String

/-- The slice of `SOURCE_CONFIG` consumed by `_read_xlsx_data`. -/
structure ScanConfig where
  start_row : ℕ
  fields : List (String × ℕ)
  end_markers : List String
  skip_empty_rows : Bool
  required_fields : List String
  max_rows : ℕ

/-- Does some configured field column hold an end marker in this row
(lines 245–254: `str(cell_value).strip() in end_markers`)? -/
def isMarkerRow (cfg : ScanConfig) (grid : Grid) (row : ℕ) : Bool :=
  cfg.fields.any fun fc =>
    match grid row fc.2 with
    | some s => cfg.end_markers.contains (pyStrip s)
    | none => false

/-- The stored value of a field in a row: strings are stripped when read
(line 268). -/
def rowFieldValue (grid : Grid) (row col : ℕ) : Option String :=
  (grid row col).map pyStrip

/-- The `has_data` flag of a row (lines 261–274): some field has a non-empty
trimmed value. -/
def rowHasData (cfg : ScanConfig) (grid : Grid) (row : ℕ) : Bool :=
  cfg.fields.any fun fc =>
    match grid row fc.2 with
    | some s => pyStrip s ≠ ""
    | none => false

/-- The `required_has_data` test (lines 280–284): some required field is present
and non-empty after stripping. -/
def rowRequiredHasData (cfg : ScanConfig) (grid : Grid) (row : ℕ) : Bool :=
  cfg.required_fields.any fun f =>
    match (cfg.fields.lookup f).bind (rowFieldValue grid row) with
    | some s => s ≠ ""
    | none => false

/-- The `continue` test (lines 277–292). -/
def rowSkipped (cfg : ScanConfig) (grid : Grid) (row : ℕ) : Bool :=
  cfg.skip_empty_rows &&
    (if cfg.required_fields.isEmpty then ¬rowHasData cfg grid row
     else ¬rowRequiredHasData cfg grid row)

/-- The final emission test (line 295): `has_data or (required_fields and
any(row_data.get(field) ...))`; a stored string is truthy iff non-empty. -/
def rowEmitTest (cfg : ScanConfig) (grid : Grid) (row : ℕ) : Bool :=
  rowHasData cfg grid row ||
    (¬cfg.required_fields.isEmpty && rowRequiredHasData cfg grid row)

/-- One forward scan shared by both readers: starting at `cur` with `fuel`
rows left inside the loop bound, stop at the first marker row, and emit
the rows passing `emit`. -/
def scanSeq (marker emit : ℕ → Bool) (cur fuel : ℕ) : List ℕ :=
  match fuel with
  | 0 => []
  | fuel' + 1 =>
    if marker cur then []
    else if emit cur then cur :: scanSeq marker emit (cur + 1) fuel'
    else scanSeq marker emit (cur + 1) fuel'

/-- Number of loop iterations of `_read_xlsx_data`:
`while current_row <= min(worksheet.max_row, start_row + max_rows - 1)`
with the bound taken over `ℤ` (rows are 1-based). -/
def xlsxScanFuel (cfg : ScanConfig) (sheetMaxRow : ℕ) : ℕ :=
  (min (sheetMaxRow : ℤ) ((cfg.start_row : ℤ) + cfg.max_rows - 1) + 1
    - cfg.start_row).toNat

/-- The rows emitted by `_read_xlsx_data` (lines 215–309). -/
def readXlsxRows (cfg : ScanConfig) (grid : Grid) (sheetMaxRow : ℕ) :
    List ℕ :=
  scanSeq (isMarkerRow cfg grid)
    (fun r => ¬rowSkipped cfg grid r && rowEmitTest cfg grid r)
    cfg.start_row (xlsxScanFuel cfg sheetMaxRow)

/-! ### The salary-details variant — `src/models/salary_excel_reader.py`

`_extract_salary_details` (lines 293–339) scans rows
`data_start_row .. data_start_row + max_rows - 1` of the fixed salary
extraction config (`salary_settings.py` lines 22–58): fields in columns
1–6, `end_markers = ['应发合计', '扣减项目', '实发工资']`.  Its end test
`_is_end_marker` (lines 392–421) looks only at columns
`start_col .. start_col + 4` and uses substring containment. -/

/-- Embeds `SALARY_CONFIG['source_extraction']['fields']` as (name, column),
column = `start_col + offset - 1` with `start_col = 1`. -/
def salaryFields : List (String × ℕ) :=
  [("category", 1), ("project", 2), ("quantity", 3), ("rate", 4),
   ("amount", 5), ("note", 6)]

/-- Embeds `SALARY_CONFIG['source_extraction']['end_markers']`. -/
def salaryEndMarkers : List String := ["应发合计", "扣减项目", "实发工资"]

/-- Embeds `_is_end_marker` (lines 392–421): columns `start_col .. start_col + 4`
only, matching `marker in str(cell_value).strip()` (substring). -/
def salaryIsEndMarkerRow (grid : Grid) (row : ℕ) : Bool :=
  (List.range 5).any fun off =>
    match grid row (1 + off) with
    | some s => salaryEndMarkers.any fun m => decide (m.data <:+: (pyStrip s).data)
    | none => false

/-- Row emission of `_extract_salary_details` (lines 318–334): not all
fields empty, and the `project` field non-empty after stripping
(`_is_valid_row`, lines 423–435). -/
def salaryRowEmitted (grid : Grid) (row : ℕ) : Bool :=
  (salaryFields.any fun fc => (grid row fc.2).isSome) &&
    (match (grid row 2).map pyStrip with
     | some s => pyStrip s ≠ ""
     | none => false)

/-- The rows emitted by `_extract_salary_details` (lines 293–339):
`data_start_row = 5`, `max_rows = 100`. -/
def extractSalaryDetailRows (grid : Grid) : List ℕ :=
  scanSeq (salaryIsEndMarkerRow grid) (salaryRowEmitted grid) 5 100

/-! ## Single-record composition — `process_salary_file`

`src/models/salary_excel_writer.py` lines 118–187 and 894–916.  The class
`SalaryExcelWriter` defines no method `_sanitize_filename`, yet
`_generate_output_path` calls `self._sanitize_filename(...)` three times;
in Python that is an `AttributeError` the outer `except` re-raises as
`处理工资文件失败: ...`. -/

/-- The methods actually defined on `class SalaryExcelWriter`
(`salary_excel_writer.py`), in source order. -/
def salaryExcelWriterMethods : List String :=
  ["__init__", "_load_user_config", "_merge_configs", "save_user_config",
   "set_template_paths", "process_salary_file",
   "process_multiple_salary_to_single_file", "_sanitize_sheet_name",
   "_get_unique_sheet_name", "_copy_worksheet_content", "_get_template_path",
   "_fill_employee_info", "_fill_attendance_info", "_calculate_salary_data",
   "_extract_quantity_from_details", "_fill_salary_data",
   "_generate_output_path", "get_user_config", "validate_templates",
   "_validate_template_structure"]

/-- The file-system facts `process_salary_file` consults. -/
structure FileEnv where
  /-- Embeds `self.template_paths[job_type]` (`_get_template_path`, lines 393–405;
  `none` covers both a missing attribute and a missing key). -/
  templatePaths : String → Option String
  /-- Embeds `os.path.exists` on a template path. -/
  fileExists : String → Bool
  /-- whether `_validate_template_structure` succeeds on the template's
  active worksheet (lines 972–1011). -/
  templateStructureValid : String → Bool

/-- Embeds `_generate_output_path` (lines 894–916).  Its first statement using
`self._sanitize_filename` raises `AttributeError` because the method does
not exist; the `.ok` branch below (what the code would build if it did) is
unreachable. -/
def generateOutputPath (name month jobType outputDir : String) :
    Except String String :=
  if "_sanitize_filename" ∈ salaryExcelWriterMethods then
    .ok (outputDir ++ "/" ++ name ++ "_" ++ month ++ "_" ++ jobType ++
      "_工资条.xlsx")
  else
    .error
      "AttributeError: 'SalaryExcelWriter' object has no attribute '_sanitize_filename'"

/-- The body of `process_salary_file` (lines 131–175): resolve and load
the template, validate its structure, fill the sheet (the fill helpers
write cells and cannot fail on a structurally valid sheet;
`_fill_attendance_info` and `_calculate_salary_data` additionally swallow
their own exceptions), then build the output path and save. -/
def processSalaryFileBody (env : FileEnv) (name month jobType outputDir :
    String) : Except String String :=
  match env.templatePaths jobType with
  | none => .error ("找不到 " ++ jobType ++ " 的模板文件")
  | some p =>
    if env.fileExists p then
      if env.templateStructureValid p then
        generateOutputPath name month jobType outputDir
      else .error "模板结构验证失败"
    else .error ("找不到 " ++ jobType ++ " 的模板文件")

/-- Embeds `process_salary_file` (lines 118–187): any exception from the body is
re-raised as `处理工资文件失败: ...` (lines 177–179). -/
def processSalaryFile (env : FileEnv) (name month jobType outputDir :
    String) : Except String String :=
  match processSalaryFileBody env name month jobType outputDir with
  | .ok v => .ok v
  | .error e => .error ("处理工资文件失败: " ++ e)

/-! ## Role resolution — `src/controllers/salary_processor.py` -/

/-- Embeds `determine_job_type_from_filename` (lines 178–195): the first
configured role name occurring as a substring of the file name, else
`None`. -/
def determineJobTypeFromFilename (filename : String) : Option String :=
  jobTypes.find? fun j => decide (j.data <:+: filename.data)

/-- Embeds `determine_job_type` (lines 197–221): the performance-threshold
fallback, always returning some role. -/
def determineJobType (performanceValue : ℚ) : String :=
  if 100000 < performanceValue then (jobTypes.getD 0 "")
  else if 50000 < performanceValue then
    (if 1 < jobTypes.length then jobTypes.getD 1 "" else jobTypes.getD 0 "")
  else
    (if 2 < jobTypes.length then jobTypes.getD 2 "" else jobTypes.getD 0 "")

/-- Per-record role resolution in `_process_single_file` (lines 686–692):
the file-name role if present, otherwise the performance fallback. -/
def resolveRecordJobType (jobTypeFromFile : Option String)
    (performanceValue : ℚ) : String :=
  match jobTypeFromFile with
  | some j => j
  | none => determineJobType performanceValue

/-- What processing one record can do.  `raised` exists so the spec's
"hard error surfaced to the orchestrator" is expressible; no code path of
`_process_single_file`'s per-record loop produces it (lines 675–746 catch
every per-record exception and `continue`). -/
inductive RecordOutcome where
  | produced (path : String)
  | skipped (reason : String)
  | raised (msg : String)
deriving DecidableEq

/-- Is the outcome a raised error? -/
def RecordOutcome.isRaised : RecordOutcome → Bool
  | .raised _ => true
  | _ => false

/-- Processing of one employee record inside `_process_single_file`
(lines 675–746): resolve the role, skip when no template is configured for
it (lines 695–697), otherwise generate the pay slip, downgrading any
failure to a logged skip (lines 730–739). -/
def processRecord (env : FileEnv) (jobTypeFromFile : Option String)
    (name month : String) (performanceValue : ℚ) (outputDir : String) :
    RecordOutcome :=
  let jobType := resolveRecordJobType jobTypeFromFile performanceValue
  match env.templatePaths jobType with
  | none => .skipped ("没有找到职业类型 " ++ jobType ++ " 的模板文件")
  | some _ =>
    match processSalaryFile env name month jobType outputDir with
    | .ok p => .produced p
    | .error e => .skipped ("生成工资条失败: " ++ e)

/-! ## Sheet naming — multi-record composition

`process_multiple_salary_to_single_file` names each record's sub-sheet
with `_sanitize_sheet_name` + `_get_unique_sheet_name`
(`salary_excel_writer.py` lines 236–240 and 291–341). -/

/-- Python `s[:n]` for an `int` index (negative indices count from the
end, clipped at 0). -/
def pySlice (s : String) (n : ℤ) : String :=
  if 0 ≤ n then ⟨s.data.take n.toNat⟩
  else ⟨s.data.take (s.data.length - (-n).toNat)⟩

/-- Python `str(counter)`: fuel-driven decimal digits, least significant
first. -/
def natDigitsRevAux : ℕ → ℕ → List Char
  | 0, _ => []
  | _ + 1, 0 => []
  | fuel + 1, n + 1 =>
    Nat.digitChar ((n + 1) % 10) :: natDigitsRevAux fuel ((n + 1) / 10)

/-- Python `str` of a non-negative `int` (decimal representation). -/
def natRepr (n : ℕ) : String :=
  if n = 0 then "0" else ⟨(natDigitsRevAux n n).reverse⟩

/-- Embeds `_sanitize_sheet_name` (lines 291–312): replace the characters Excel
forbids by `_`, truncate to 31 characters, strip. -/
def sanitizeSheetName (name : String) : String :=
  let unsafeChars : List Char := ['[', ']', ':', '*', '?', '/', '\\']
  let safe : String :=
    ⟨name.data.map fun c => if c ∈ unsafeChars then '_' else c⟩
  let safe := if 31 < safe.length then ⟨safe.data.take 31⟩ else safe
  pyStrip safe

/-- One collision candidate of `_get_unique_sheet_name` (lines 331–337):
`f"{preferred}_{counter}"`, shortening the preferred part when the result
would exceed 31 characters. -/
def candidateSheetName (preferred : String) (counter : ℕ) : String :=
  let suffix := "_" ++ natRepr counter
  let cand := preferred ++ suffix
  if 31 < cand.length then
    pySlice preferred (31 - (suffix.length : ℤ)) ++ suffix
  else cand

/-- The `while True` search of `_get_unique_sheet_name` (lines 330–341),
fuelled; with fuel `existing.length + 1` the search always finds a free
candidate first (pigeonhole), so the fuel-exhausted fallback is
unreachable. -/
def uniqueSheetNameAux (existing : List String) (preferred : String) :
    ℕ → ℕ → String
  | counter, 0 => candidateSheetName preferred counter
  | counter, fuel + 1 =>
    let cand := candidateSheetName preferred counter
    if cand ∈ existing then uniqueSheetNameAux existing preferred (counter + 1) fuel
    else cand

/-- Embeds `_get_unique_sheet_name` (lines 314–341). -/
def getUniqueSheetName (existing : List String) (preferred : String) :
    String :=
  if preferred ∈ existing then
    uniqueSheetNameAux existing preferred 1 (existing.length + 1)
  else preferred

/-- Sequential sheet-name assignment of
`process_multiple_salary_to_single_file` (lines 215–240): each record's
sanitized name is made unique against the sheets created so far. -/
def assignSheetNamesAux (existing : List String) : List String → List String
  | [] => []
  | n :: rest =>
    let u := getUniqueSheetName existing (sanitizeSheetName n)
    u :: assignSheetNamesAux (existing ++ [u]) rest

/-- The sub-sheet names assigned to a list of employee names, in insertion
order (the workbook starts without its default sheet, lines 206–211). -/
def assignSheetNames (names : List String) : List String :=
  assignSheetNamesAux [] names

/-! ## Concrete scenarios from the specification -/

/-- End-to-end scenario B: role 服务老师, default configuration,
performance 125000, no manual-fee/training data, a 30-day month. -/
def scenarioB : Except String Calculated :=
  calculateSalaryData defaultUserConfig "服务老师" "张三" 125000
    zeroOperationData 30

/-- End-to-end scenario C's configuration: employee 李四 with a special
base salary of 6000 (and a special floating salary of 0, so that
`_calculate_salary_data` does not die on its unassigned
`job_specific_data`). -/
def scenarioCConfig : UserConfig :=
  { defaultUserConfig with
      baseSpecialRates := fun n => if n = "李四" then some 6000 else none
      floatingSpecialRates := fun n => if n = "李四" then some 0 else none }

/-- End-to-end scenario C's operation data: 2 actual absent days. -/
def scenarioCOp : OperationData :=
  { zeroOperationData with actual_absent_days := 2 }

/-- Embeds `SOURCE_CONFIG` (`src/config/settings.py` lines 19–49), the
configuration the generic reader runs with. -/
def sourceConfig : ScanConfig where
  start_row := 11
  fields := [("product_name", 2), ("unit", 4), ("quantity", 5), ("amount", 7)]
  end_markers := ["合计", "合  计", "小计", "小 计", "总计", "总 计"]
  skip_empty_rows := true
  required_fields := ["product_name"]
  max_rows := 1000

/-- A grid whose row 5 holds a salary-detail row whose `note` field
(column 6) is exactly the end marker `应发合计`; the marker test of
`_extract_salary_details` only looks at columns 1–5 and misses it. -/
def c8CexGrid : Grid := fun r c =>
  if r = 5 ∧ c = 1 then some "工资"
  else if r = 5 ∧ c = 2 then some "服务提成"
  else if r = 5 ∧ c = 6 then some "应发合计"
  else none

/-- A small grid for the generic reader: a data row at 11, the `合计`
end-marker row at 12. -/
def c8WitnessGrid : Grid := fun r c =>
  if r = 11 ∧ c = 2 then some "苹果"
  else if r = 12 ∧ c = 2 then some "合计"
  else none

/-- Decoder for `natDigitsRevAux`: the value of a least-significant-first
digit list (used to prove `natRepr` injective). -/
def revVal : List Char → ℕ
  | [] => 0
  | c :: cs => (c.toNat - 48) + 10 * revVal cs

/-- The untruncated collision candidate `preferred ++ "_" ++ str(counter)`. -/
def sheetCand (p : String) (k : ℕ) : String :=
  p ++ "_" ++ natRepr k

/-- The suffixed candidate for counter `j` fits in Excel's 31-character
sheet-name limit without truncation. -/
def sheetNameFits (p : String) (j : ℕ) : Prop :=
  p.length + 1 + (natRepr j).length ≤ 31

instance (p : String) (j : ℕ) : Decidable (sheetNameFits p j) := by
  unfold sheetNameFits
  infer_instance

/-- The sheet names present after `k + 1` records with the identical
sanitized base name `p` have been placed: `p, p_1, …, p_k`. -/
def existingSheets (p : String) (k : ℕ) : List String :=
  p :: (List.range k).map (fun i => sheetCand p (i + 1))

/-- A fully healthy environment: every role has a configured template,
the file exists and its structure validates. -/
def validEnv : FileEnv where
  templatePaths := fun _ => some "salary_template.xlsx"
  fileExists := fun _ => true
  templateStructureValid := fun _ => true

/-! # Theorems -/

/-- Successful runs of `_calculate_salary_data` always produce the
straight-line core applied to some resolved base and floating rates. -/
theorem calculateSalaryData_ok {cfg : UserConfig} {jobType employeeName : String}
    {perf : ℚ} {op : OperationData} {currentMonthDays : ℕ} {c : Calculated}
    (h : calculateSalaryData cfg jobType employeeName perf op currentMonthDays
      = .ok c) :
    ∃ baseRate floatRate,
      c = calculateSalaryCore cfg jobType baseRate floatRate perf op
        currentMonthDays := by
  unfold calculateSalaryData at h
  rcases hb : cfg.baseSpecialRates employeeName with _ | br
  · rw [hb] at h
    exact ⟨_, _, ((Except.ok.injEq _ _).mp h).symm⟩
  · rw [hb] at h
    rcases hf : cfg.floatingSpecialRates employeeName with _ | fr
    · rw [hf] at h
      exact absurd h (by simp)
    · rw [hf] at h
      exact ⟨br, fr, ((Except.ok.injEq _ _).mp h).symm⟩

/-- C1 (counterexample): in end-to-end scenario B the computed
`total_salary` is 7375, not the claimed 6875 — the sum also includes the
role's `special_allowance` (500 for 服务老师). -/
theorem C1_total_salary_cex :
    scenarioB.toOption.map Calculated.total_salary = some 7375 ∧
      (7375 : ℚ) ≠ 6875 := by
  constructor
  · simp only [scenarioB, calculateSalaryData, calculateSalaryCore,
      defaultUserConfig, jobDefaultBaseSalary, JOB_SPECIFIC_CONFIG,
      zeroOperationData, Except.toOption, Option.map, Option.getD,
      String.reduceEq]
    norm_num
  · norm_num

/-- C1 (amended): for every employee record and every role, the computed
gross total `total_salary` is the sum of the base-salary, floating-salary,
commission, training-allowance and body/face manual-fee line amounts
*plus* the role's `special_allowance` (1000 for 服务总监, 500 for 服务老师,
0 for 操作老师); for each role the other two roles' commission amounts are
zero. -/
theorem C1_gross_total (cfg : UserConfig) (jobType employeeName : String)
    (perf : ℚ) (op : OperationData) (currentMonthDays : ℕ) (c : Calculated)
    (h : calculateSalaryData cfg jobType employeeName perf op currentMonthDays
      = .ok c) :
    c.total_salary =
        c.base_salary + c.floating_salary + c.expert_commission +
          c.service_commission + c.operation_commission +
          c.training_allowance + c.body_manual_fee + c.face_manual_fee +
          c.special_allowance ∧
      (jobType = "服务总监" →
        c.special_allowance = 1000 ∧ c.service_commission = 0 ∧
          c.operation_commission = 0) ∧
      (jobType = "服务老师" →
        c.special_allowance = 500 ∧ c.expert_commission = 0 ∧
          c.operation_commission = 0) ∧
      (jobType = "操作老师" →
        c.special_allowance = 0 ∧ c.expert_commission = 0 ∧
          c.service_commission = 0) := by
  obtain ⟨br, fr, rfl⟩ := calculateSalaryData_ok h
  refine ⟨rfl, ?_, ?_, ?_⟩ <;> rintro rfl <;>
    refine ⟨by rfl, by simp [calculateSalaryCore], by simp [calculateSalaryCore]⟩

/-- Witness for C1 at scenario B: the gross total 7375 decomposes as
5000 + 0 + 1875 + 500. -/
theorem C1_gross_total_witness :
    ∃ c, scenarioB = .ok c ∧
      c.total_salary =
        c.base_salary + c.floating_salary + c.expert_commission +
          c.service_commission + c.operation_commission +
          c.training_allowance + c.body_manual_fee + c.face_manual_fee +
          c.special_allowance ∧
      c.total_salary = 7375 ∧ c.base_salary = 5000 ∧
      c.service_commission = 1875 ∧ c.special_allowance = 500 := by
  refine ⟨_, rfl, ?_⟩
  have h := C1_gross_total defaultUserConfig "服务老师" "张三" 125000
    zeroOperationData 30 _ rfl
  refine ⟨h.1, ?_, ?_, ?_, ?_⟩ <;>
    · simp only [calculateSalaryData, calculateSalaryCore, defaultUserConfig,
        jobDefaultBaseSalary, JOB_SPECIFIC_CONFIG, zeroOperationData,
        Option.getD, String.reduceEq]
      norm_num

/-- C2 (counterexample): for the 服务老师 commission line of scenario B the
stored quantity is 125000 and the stored rate is 1.5 (a percentage), so
`quantity * rate = 187500` while the stored amount is 1875. -/
theorem C2_commission_product_cex :
    scenarioB.toOption.map
        (fun c => (c.service_commission,
          c.service_commission_quantity * c.service_commission_rate)) =
      some (1875, 187500) ∧ (1875 : ℚ) ≠ 187500 := by
  constructor
  · simp only [scenarioB, calculateSalaryData, calculateSalaryCore,
      defaultUserConfig, jobDefaultBaseSalary, JOB_SPECIFIC_CONFIG,
      zeroOperationData, Except.toOption, Option.map, Option.getD,
      String.reduceEq]
    norm_num
  · norm_num

/-- C2 (amended): for every role and every input, each non-aggregate
PayLine except the three commission lines satisfies
`amount = quantity * rate` on the stored values; the commission lines
store their rate as a percentage and satisfy
`amount = quantity * (rate / 100)`. -/
theorem C2_payline_products (cfg : UserConfig)
    (jobType employeeName : String) (perf : ℚ) (op : OperationData)
    (currentMonthDays : ℕ) (c : Calculated)
    (h : calculateSalaryData cfg jobType employeeName perf op currentMonthDays
      = .ok c) :
    c.base_salary = c.base_salary_quantity * c.base_salary_rate ∧
    c.floating_salary = c.floating_salary_quantity * c.floating_salary_rate ∧
    c.training_allowance =
      c.training_allowance_quantity * c.training_allowance_rate ∧
    c.body_manual_fee = c.body_manual_fee_quantity * c.body_manual_fee_rate ∧
    c.face_manual_fee = c.face_manual_fee_quantity * c.face_manual_fee_rate ∧
    c.absent_deduction =
      c.absent_deduction_quantity * c.absent_deduction_rate ∧
    c.late_deduction = c.late_deduction_quantity * c.late_deduction_rate ∧
    c.social_security = c.social_security_quantity * c.social_security_rate ∧
    c.personal_tax = c.personal_tax_quantity * c.personal_tax_rate ∧
    c.expert_commission =
      c.expert_commission_quantity * (c.expert_commission_rate / 100) ∧
    c.service_commission =
      c.service_commission_quantity * (c.service_commission_rate / 100) ∧
    c.operation_commission =
      c.operation_commission_quantity * (c.operation_commission_rate / 100) := by
  obtain ⟨br, fr, rfl⟩ := calculateSalaryData_ok h
  refine ⟨rfl, rfl, rfl, rfl, rfl, rfl, rfl, rfl, rfl, ?_, ?_, ?_⟩ <;>
    · simp only [calculateSalaryCore]
      split <;> simp

/-- Witness for C2 at scenario B. -/
theorem C2_payline_products_witness :
    ∃ c, scenarioB = .ok c ∧
      c.base_salary = c.base_salary_quantity * c.base_salary_rate ∧
      c.service_commission =
        c.service_commission_quantity * (c.service_commission_rate / 100) := by
  refine ⟨_, rfl, ?_⟩
  have h := C2_payline_products defaultUserConfig "服务老师" "张三" 125000
    zeroOperationData 30 _ rfl
  exact ⟨h.1, h.2.2.2.2.2.2.2.2.2.2.1⟩

/-- C7: the absence-deduction line has
`rate = base-salary amount / days-in-current-month` (positive whenever the
base-salary amount is), `quantity = -actual_absent_days` when positive and
0 otherwise, and `amount = quantity * rate`, hence non-positive (for the
non-negative base salaries of the configuration). -/
theorem C7_absence_deduction (cfg : UserConfig)
    (jobType employeeName : String) (perf : ℚ) (op : OperationData)
    (currentMonthDays : ℕ) (c : Calculated)
    (h : calculateSalaryData cfg jobType employeeName perf op currentMonthDays
      = .ok c)
    (hdays : 0 < currentMonthDays) :
    c.absent_deduction_rate = c.base_salary / currentMonthDays ∧
    c.absent_deduction_quantity =
      (if 0 < op.actual_absent_days then -op.actual_absent_days else 0) ∧
    c.absent_deduction =
      c.absent_deduction_quantity * c.absent_deduction_rate ∧
    (0 < c.base_salary → 0 < c.absent_deduction_rate) ∧
    (0 ≤ c.base_salary → c.absent_deduction ≤ 0) := by
  obtain ⟨br, fr, rfl⟩ := calculateSalaryData_ok h
  set cc := calculateSalaryCore cfg jobType br fr perf op currentMonthDays
    with hcc
  have hrate : cc.absent_deduction_rate = cc.base_salary / currentMonthDays := by
    simp only [hcc, calculateSalaryCore, if_pos hdays]
  have hq : cc.absent_deduction_quantity =
      (if 0 < op.actual_absent_days then -op.actual_absent_days else 0) := rfl
  have hamt : cc.absent_deduction =
      cc.absent_deduction_quantity * cc.absent_deduction_rate := rfl
  refine ⟨hrate, hq, hamt, ?_, ?_⟩
  · intro hpos
    rw [hrate]
    positivity
  · intro hnn
    rw [hamt, hq]
    have hr : 0 ≤ cc.absent_deduction_rate := by
      rw [hrate]
      positivity
    split
    · rename_i habs
      have : (0 : ℚ) ≤ op.actual_absent_days := le_of_lt habs
      nlinarith
    · simp

/-- Witness for C7, end-to-end scenario C: `actual_absent_days = 2`,
base salary 6000, a 30-day month — rate 200 per day, quantity −2,
amount −400. -/
theorem C7_absence_deduction_witness :
    ∃ c, calculateSalaryData scenarioCConfig "操作老师" "李四" 0 scenarioCOp
        30 = .ok c ∧
      c.absent_deduction_rate = 200 ∧ c.absent_deduction_quantity = -2 ∧
      c.absent_deduction = -400 ∧ c.absent_deduction ≤ 0 := by
  have h := C7_absence_deduction scenarioCConfig "操作老师" "李四" 0
    scenarioCOp 30 _ rfl (by norm_num)
  refine ⟨_, rfl, ?_, ?_, ?_, h.2.2.2.2 ?_⟩
  all_goals
    simp only [calculateSalaryData, calculateSalaryCore, scenarioCConfig,
      scenarioCOp, defaultUserConfig, jobDefaultBaseSalary,
      JOB_SPECIFIC_CONFIG, zeroOperationData, Option.getD, String.reduceEq]
    norm_num

/-- C10: every attendance entry stores
`work_days = max(0, days-in-current-month − rest_days)` — hence never
negative — and `actual_absent_days = rest_days − 4` (hard-coded base of 4
monthly rest days and 0 holiday days), which can be negative. -/
theorem C10_attendance_entry :
    (∀ (days : ℕ) (rest late training tax : ℚ),
      (readAttendanceRow days rest late training tax).work_days =
          max 0 ((days : ℚ) - rest) ∧
        0 ≤ (readAttendanceRow days rest late training tax).work_days ∧
        (readAttendanceRow days rest late training tax).actual_absent_days =
          rest - 4) ∧
      ∃ (days : ℕ) (rest late training tax : ℚ),
        (readAttendanceRow days rest late training tax).actual_absent_days
          < 0 := by
  constructor
  · intro days rest late training tax
    refine ⟨rfl, le_max_left 0 _, ?_⟩
    show rest - baseMonthlyRestDays - currentMonthHolidayDays = rest - 4
    rw [baseMonthlyRestDays, currentMonthHolidayDays]
    ring
  · refine ⟨30, 0, 0, 0, 0, ?_⟩
    show (0 : ℚ) - baseMonthlyRestDays - currentMonthHolidayDays < 0
    rw [baseMonthlyRestDays, currentMonthHolidayDays]
    norm_num

/-- C5 (counterexample): the readers strip only the ASCII comma, so the
full-width-comma string `"1，234"` is unparsable and normalizes to 0,
while its separator-free form normalizes to 1234. -/
theorem C5_fullwidth_comma_cex :
    convertToNumber (some (.str "1，234")) = 0 ∧
      convertToNumber (some (.str "1234")) = 1234 ∧ (0 : ℚ) ≠ 1234 := by
  refine ⟨rfl, ?_, by norm_num⟩
  have h : convertToNumber (some (.str "1234")) =
      (1 : ℚ) * ((1234 : ℕ) : ℚ) := rfl
  rw [h]
  norm_num

/-- Removing a character from a string is idempotent. -/
theorem removeChar_idem (c : Char) (s : String) :
    removeChar c (removeChar c s) = removeChar c s := by
  show (⟨((s.data.filter _).filter _ : List Char)⟩ : String) = ⟨_⟩
  rw [List.filter_filter]
  congr 1
  apply List.filter_congr
  intro a _
  simp

/-- C5 (amended): normalization yields the same numeric value on a string
and on its ASCII-comma-free form — ASCII thousands separators are
transparent; CJK full-width commas are not stripped (see the
counterexample). -/
theorem C5_ascii_separator (s : String) :
    convertToNumber (some (.str (removeChar ',' s))) =
      convertToNumber (some (.str s)) := by
  show (let cleaned := pyStrip (removeChar ' ' (removeChar ',' (removeChar ',' s)))
        if cleaned ≠ "" then (pyFloat cleaned).getD 0 else 0) =
      (let cleaned := pyStrip (removeChar ' ' (removeChar ',' s))
       if cleaned ≠ "" then (pyFloat cleaned).getD 0 else 0)
  rw [removeChar_idem]

/-- A `_safe_write_cell` targeting a cell inside a merged range of a
well-formed sheet (merged ranges pairwise disjoint) writes the range's
anchor (top-left) cell and leaves every other cell — in particular every
non-anchor member of the range — unchanged. -/
theorem safeWriteCell_anchor {α : Type} (ranges : List MergedRange)
    (sheet : Sheet α) (row col : ℕ) (v : α) (R : MergedRange)
    (hdisj : DisjointRanges ranges) (hR : R ∈ ranges)
    (hin : R.containsCell row col = true) :
    safeWriteCell ranges sheet row col v R.anchor = ⟨some v, true⟩ ∧
      ∀ p, p ≠ R.anchor → safeWriteCell ranges sheet row col v p = sheet p := by
  have htarget : resolveWriteTarget ranges row col = R.anchor := by
    unfold resolveWriteTarget
    cases hf : ranges.find? (fun r => r.containsCell row col) with
    | none =>
      have := List.find?_eq_none.mp hf R hR
      simp [hin] at this
    | some r' =>
      have h1 : r'.containsCell row col := by
        simpa using List.find?_some hf
      have h2 : r' ∈ ranges := List.mem_of_find?_eq_some hf
      simp [hdisj r' h2 R hR row col h1 hin]
  unfold safeWriteCell
  rw [htarget]
  constructor
  · simp
  · intro p hp
    simp [hp]

/-- C6 (counterexample): the salary composer's direct
`worksheet[cell] = value` write targeting the member cell (3, 3) of the
merged range `B2:D3` does not mutate the anchor (2, 2): it raises
openpyxl's read-only `MergedCell` error instead. -/
theorem C6_direct_write_cex :
    MergedRange.containsCell ⟨2, 3, 2, 4⟩ 3 3 = true ∧
      ((3 : ℕ), (3 : ℕ)) ≠ MergedRange.anchor ⟨2, 3, 2, 4⟩ ∧
      directWriteCell [⟨2, 3, 2, 4⟩]
          (fun _ => (⟨none, false⟩ : CellState String)) 3 3 "手工费" =
        .error
          "AttributeError: 'MergedCell' object attribute 'value' is read-only" := by
  refine ⟨by decide, by decide, rfl⟩

/-- C6 (amended): Composer writes that go through `_safe_write_cell`
always mutate the merged range's anchor (top-left) cell and leave every
non-anchor cell unchanged (for pairwise-disjoint merged ranges); the
salary composer's `_fill_salary_data` / `_fill_employee_info` /
`_fill_attendance_info` writes instead use plain `worksheet[cell] = value`
with no merge redirection, so a write of theirs targeting a non-anchor
member of a merged range raises openpyxl's read-only `MergedCell` error
rather than mutating the anchor. -/
theorem C6_composer_writes {α : Type} (ranges : List MergedRange)
    (sheet : Sheet α) (row col : ℕ) (v : α) (R : MergedRange)
    (hR : R ∈ ranges) (hin : R.containsCell row col = true) :
    (DisjointRanges ranges →
      safeWriteCell ranges sheet row col v R.anchor = ⟨some v, true⟩ ∧
        ∀ p, p ≠ R.anchor → safeWriteCell ranges sheet row col v p = sheet p) ∧
      ((row, col) ≠ R.anchor →
        directWriteCell ranges sheet row col v =
          .error
            "AttributeError: 'MergedCell' object attribute 'value' is read-only") := by
  constructor
  · intro hdisj
    exact safeWriteCell_anchor ranges sheet row col v R hdisj hR hin
  · intro hne
    unfold directWriteCell
    rw [if_pos]
    exact List.any_eq_true.mpr ⟨R, hR, by simp [hin, hne]⟩

/-- Witness for C6: a 2×3 merged range `B2:D3`, written at its member
cell (3, 3): the safe path mutates the anchor (2, 2) and nothing else,
the direct path raises. -/
theorem C6_composer_writes_witness :
    (safeWriteCell [⟨2, 3, 2, 4⟩] (fun _ => ⟨none, false⟩) 3 3 "手工费"
          (MergedRange.anchor ⟨2, 3, 2, 4⟩) = ⟨some "手工费", true⟩ ∧
        ∀ p, p ≠ MergedRange.anchor ⟨2, 3, 2, 4⟩ →
          safeWriteCell [⟨2, 3, 2, 4⟩] (fun _ => ⟨none, false⟩) 3 3 "手工费"
              p =
            (fun _ => (⟨none, false⟩ : CellState String)) p) ∧
      directWriteCell [⟨2, 3, 2, 4⟩]
          (fun _ => (⟨none, false⟩ : CellState String)) 3 3 "手工费" =
        .error
          "AttributeError: 'MergedCell' object attribute 'value' is read-only" := by
  have h := C6_composer_writes [⟨2, 3, 2, 4⟩]
    (fun _ => (⟨none, false⟩ : CellState String)) 3 3 "手工费" ⟨2, 3, 2, 4⟩
    (by simp) (by decide)
  refine ⟨h.1 ?_, h.2 (by decide)⟩
  intro r₁ h₁ r₂ h₂ row col _ _
  rw [List.mem_singleton.mp h₁, List.mem_singleton.mp h₂]

/-- A scan emits at most one row per unit of fuel. -/
theorem scanSeq_length_le (marker emit : ℕ → Bool) :
    ∀ fuel cur, (scanSeq marker emit cur fuel).length ≤ fuel := by
  intro fuel
  induction fuel with
  | zero => intro cur; simp [scanSeq]
  | succ fuel ih =>
    intro cur
    unfold scanSeq
    split
    · simp
    · split
      · simpa using Nat.succ_le_succ (ih (cur + 1))
      · exact (ih (cur + 1)).trans (Nat.le_succ fuel)

/-- Every emitted row lies at or after the scan start, and no row from the
start up to an emitted row satisfies the marker test. -/
theorem scanSeq_no_marker (marker emit : ℕ → Bool) :
    ∀ fuel cur r, r ∈ scanSeq marker emit cur fuel →
      cur ≤ r ∧ ∀ r', cur ≤ r' → r' ≤ r → marker r' = false := by
  intro fuel
  induction fuel with
  | zero => intro cur r hr; simp [scanSeq] at hr
  | succ fuel ih =>
    intro cur r hr
    unfold scanSeq at hr
    by_cases hm : marker cur
    · simp [hm] at hr
    · rw [if_neg hm] at hr
      have hmem : r = cur ∨ r ∈ scanSeq marker emit (cur + 1) fuel := by
        by_cases he : emit cur
        · rw [if_pos he] at hr
          exact List.mem_cons.mp hr
        · rw [if_neg he] at hr
          exact Or.inr hr
      rcases hmem with rfl | hrest
      · refine ⟨le_refl r, fun r' h₁ h₂ => ?_⟩
        have : r' = r := le_antisymm h₂ h₁
        subst this
        exact Bool.not_eq_true _ |>.mp hm
      · obtain ⟨hle, hall⟩ := ih (cur + 1) r hrest
        refine ⟨le_trans (Nat.le_succ cur) hle, fun r' h₁ h₂ => ?_⟩
        rcases Nat.eq_or_lt_of_le h₁ with rfl | hlt
        · exact Bool.not_eq_true _ |>.mp hm
        · exact hall r' hlt h₂

/-- C8 (amended): the generic region scanner (`_read_xlsx_data`) emits at
most `max_rows` rows and never emits a row at or after the first row whose
trimmed text in a configured field column equals an end marker; the
salary-details scanner (`_extract_salary_details`) emits at most
`max_rows = 100` rows and never emits a row at or after the first row
whose columns 1–5 contain an end marker as a substring — its marker test
does not look at the 6th field column (see the counterexample). -/
theorem C8_region_scan (cfg : ScanConfig) (grid : Grid) (sheetMaxRow : ℕ) :
    (readXlsxRows cfg grid sheetMaxRow).length ≤ cfg.max_rows ∧
      (∀ r ∈ readXlsxRows cfg grid sheetMaxRow,
        ∀ r', cfg.start_row ≤ r' → r' ≤ r →
          isMarkerRow cfg grid r' = false) ∧
      (extractSalaryDetailRows grid).length ≤ 100 ∧
      (∀ r ∈ extractSalaryDetailRows grid,
        ∀ r', 5 ≤ r' → r' ≤ r → salaryIsEndMarkerRow grid r' = false) := by
  refine ⟨?_, ?_, ?_, ?_⟩
  · refine (scanSeq_length_le _ _ _ _).trans ?_
    unfold xlsxScanFuel
    omega
  · intro r hr r' h₁ h₂
    exact (scanSeq_no_marker _ _ _ _ r hr).2 r' h₁ h₂
  · exact scanSeq_length_le _ _ _ _
  · intro r hr r' h₁ h₂
    exact (scanSeq_no_marker _ _ _ _ r hr).2 r' h₁ h₂

/-- C8 (counterexample): on `c8CexGrid` the salary-details scanner emits
row 5 even though the configured field column 6 (`note`) of row 5 holds
exactly the configured end marker `应发合计` — refuting the claim for
`_extract_salary_details`. -/
theorem C8_note_column_marker_cex :
    extractSalaryDetailRows c8CexGrid = [5] ∧
      (c8CexGrid 5 6).map pyStrip = some "应发合计" ∧
      "应发合计" ∈ salaryEndMarkers ∧ ("note", 6) ∈ salaryFields := by
  refine ⟨by decide, by decide, by decide, by decide⟩

/-- Witness for C8: on `c8WitnessGrid` the generic scanner emits row 11,
and the marker test is indeed false there. -/
theorem C8_region_scan_witness :
    (11 ∈ readXlsxRows sourceConfig c8WitnessGrid 20) ∧
      isMarkerRow sourceConfig c8WitnessGrid 11 = false := by
  have h := C8_region_scan sourceConfig c8WitnessGrid 20
  have hmem : 11 ∈ readXlsxRows sourceConfig c8WitnessGrid 20 := by decide
  exact ⟨hmem, h.2.1 11 hmem 11 (by decide) (by decide)⟩

/-- C3: for every record whose role has a configured, existing,
structurally valid template, `process_salary_file` still raises — its
output-path step calls the undefined method `_sanitize_filename`, so no
document is written and no path returned. -/
theorem C3_process_salary_file_raises (env : FileEnv)
    (name month jobType outputDir p : String)
    (h1 : env.templatePaths jobType = some p)
    (h2 : env.fileExists p = true)
    (h3 : env.templateStructureValid p = true) :
    processSalaryFile env name month jobType outputDir =
      .error ("处理工资文件失败: " ++
        "AttributeError: 'SalaryExcelWriter' object has no attribute '_sanitize_filename'") := by
  have hmem : ("_sanitize_filename" ∈ salaryExcelWriterMethods) = False :=
    eq_false (by decide)
  simp [processSalaryFile, processSalaryFileBody, generateOutputPath, h1, h2,
    h3, hmem]

/-- Witness for C3: a concrete record in the healthy environment. -/
theorem C3_process_salary_file_raises_witness :
    validEnv.templatePaths "服务老师" = some "salary_template.xlsx" ∧
      validEnv.fileExists "salary_template.xlsx" = true ∧
      validEnv.templateStructureValid "salary_template.xlsx" = true ∧
      processSalaryFile validEnv "张三" "2024年1月" "服务老师" "输出" =
        .error ("处理工资文件失败: " ++
          "AttributeError: 'SalaryExcelWriter' object has no attribute '_sanitize_filename'") :=
  ⟨rfl, rfl, rfl,
    C3_process_salary_file_raises validEnv "张三" "2024年1月" "服务老师" "输出"
      "salary_template.xlsx" rfl rfl rfl⟩

/-- C4 (counterexample): for a source file name containing no configured
role name, the record is not a hard error — the code silently defaults the
role from the performance value (here 操作老师 for performance 0). -/
theorem C4_silent_default_cex :
    determineJobTypeFromFilename "2024年1月工资数据.xlsx" = none ∧
      resolveRecordJobType none 0 = "操作老师" ∧
      "操作老师" ∈ jobTypes ∧
      (processRecord validEnv none "王五" "1月" 0 "输出").isRaised = false := by
  refine ⟨by decide, ?_, by decide, by decide⟩
  show determineJobType 0 = "操作老师"
  unfold determineJobType
  norm_num
  decide

/-- C4 (amended): a record whose role cannot be resolved from the file
name is never a hard error: `_process_single_file` silently falls back to
`determine_job_type`, which always yields one of the three configured
roles from the performance thresholds. -/
theorem C4_role_fallback (env : FileEnv)
    (filename name month outputDir : String) (perf : ℚ)
    (h : determineJobTypeFromFilename filename = none) :
    resolveRecordJobType (determineJobTypeFromFilename filename) perf =
        determineJobType perf ∧
      determineJobType perf ∈ jobTypes ∧
      (processRecord env (determineJobTypeFromFilename filename) name month
        perf outputDir).isRaised = false := by
  rw [h]
  refine ⟨rfl, ?_, ?_⟩
  · unfold determineJobType
    split_ifs <;> decide
  · simp only [processRecord]
    cases henv : env.templatePaths (resolveRecordJobType none perf) with
    | none => simp [henv, RecordOutcome.isRaised]
    | some p =>
      cases hps : processSalaryFile env name month
          (resolveRecordJobType none perf) outputDir with
      | ok v => simp [henv, hps, RecordOutcome.isRaised]
      | error e => simp [henv, hps, RecordOutcome.isRaised]

/-- Witness for C4 at a concrete unresolvable file name and performance
60000 (which falls back to 服务老师). -/
theorem C4_role_fallback_witness :
    determineJobTypeFromFilename "2024年1月工资数据.xlsx" = none ∧
      resolveRecordJobType
          (determineJobTypeFromFilename "2024年1月工资数据.xlsx") 60000 =
        determineJobType 60000 ∧
      determineJobType 60000 ∈ jobTypes ∧
      (processRecord validEnv
        (determineJobTypeFromFilename "2024年1月工资数据.xlsx") "王五" "1月"
        60000 "输出").isRaised = false := by
  have h := C4_role_fallback validEnv "2024年1月工资数据.xlsx" "王五" "1月"
    "输出" 60000 (by decide)
  exact ⟨by decide, h.1, h.2.1, h.2.2⟩

/-- Strings with equal character data are equal. -/
theorem stringExt {a b : String} (h : a.data = b.data) : a = b := by
  cases a
  cases b
  exact congrArg String.mk h

/-- String concatenation is left-cancellative. -/
theorem stringAppend_left_cancel {a b c : String} (h : a ++ b = a ++ c) :
    b = c := by
  have hd := congrArg String.data h
  rw [String.data_append, String.data_append] at hd
  exact stringExt (List.append_cancel_left hd)

/-- The digits of `natDigitsRevAux` round-trip through `revVal` when given enough
fuel. -/
theorem revVal_natDigitsRevAux :
    ∀ fuel n, n ≤ fuel → revVal (natDigitsRevAux fuel n) = n := by
  intro fuel
  induction fuel with
  | zero =>
    intro n h
    have : n = 0 := Nat.le_zero.mp h
    subst this
    rfl
  | succ fuel ih =>
    intro n h
    match n with
    | 0 => rfl
    | m + 1 =>
      show (Nat.digitChar ((m + 1) % 10)).toNat - 48 +
          10 * revVal (natDigitsRevAux fuel ((m + 1) / 10)) = m + 1
      have hdiv : (m + 1) / 10 ≤ fuel := by
        have := Nat.div_lt_self (Nat.succ_pos m) (by norm_num : 1 < 10)
        omega
      rw [ih ((m + 1) / 10) hdiv]
      have hlt : (m + 1) % 10 < 10 := Nat.mod_lt _ (by norm_num)
      have hchar : ∀ r < 10, (Nat.digitChar r).toNat - 48 = r := by decide
      rw [hchar _ hlt]
      exact Nat.mod_add_div (m + 1) 10

/-- Python `str(int)` is injective. -/
theorem natRepr_inj : Function.Injective natRepr := by
  have key : ∀ n, revVal (natDigitsRevAux n n) = n := fun n =>
    revVal_natDigitsRevAux n n le_rfl
  have h0 : revVal ['0'] = 0 := rfl
  intro a b h
  unfold natRepr at h
  by_cases ha : a = 0 <;> by_cases hb : b = 0
  · omega
  · rw [if_pos ha, if_neg hb] at h
    have hd : (['0'] : List Char) = (natDigitsRevAux b b).reverse :=
      congrArg String.data h
    have h2 : natDigitsRevAux b b = ['0'] := by
      have := congrArg List.reverse hd
      simpa using this.symm
    have hkb := key b
    rw [h2, h0] at hkb
    omega
  · rw [if_neg ha, if_pos hb] at h
    have hd : (natDigitsRevAux a a).reverse = (['0'] : List Char) :=
      congrArg String.data h
    have h2 : natDigitsRevAux a a = ['0'] := by
      have := congrArg List.reverse hd
      simpa using this
    have hka := key a
    rw [h2, h0] at hka
    omega
  · rw [if_neg ha, if_neg hb] at h
    have hd : (natDigitsRevAux a a).reverse = (natDigitsRevAux b b).reverse :=
      congrArg String.data h
    have h2 := List.reverse_injective hd
    have hka := key a
    rw [h2, key b] at hka
    omega

/-- Decimal representations are never empty. -/
theorem natRepr_length_pos (n : ℕ) : 1 ≤ (natRepr n).length := by
  unfold natRepr
  split
  · decide
  · rename_i hn
    show 1 ≤ (natDigitsRevAux n n).reverse.length
    rw [List.length_reverse]
    match n, hn with
    | m + 1, _ => exact Nat.succ_le_succ (Nat.zero_le _)

/-- String concatenation is associative. -/
theorem stringAppend_assoc (a b c : String) : a ++ b ++ c = a ++ (b ++ c) :=
  stringExt (by simp [String.data_append, List.append_assoc])

/-- The length of an untruncated candidate. -/
theorem sheetCand_length (p : String) (k : ℕ) :
    (sheetCand p k).length = p.length + 1 + (natRepr k).length := by
  unfold sheetCand
  rw [String.length_append, String.length_append]
  rfl

/-- An untruncated candidate is never the bare preferred name. -/
theorem sheetCand_ne_base (p : String) (k : ℕ) : sheetCand p k ≠ p := by
  intro h
  have hl := congrArg String.length h
  rw [sheetCand_length] at hl
  have := natRepr_length_pos k
  omega

/-- Untruncated candidates with the same stem are injective in the
counter. -/
theorem sheetCand_inj (p : String) {k₁ k₂ : ℕ}
    (h : sheetCand p k₁ = sheetCand p k₂) : k₁ = k₂ := by
  unfold sheetCand at h
  rw [stringAppend_assoc, stringAppend_assoc] at h
  have h2 := stringAppend_left_cancel (stringAppend_left_cancel h)
  exact natRepr_inj h2

/-- When the suffixed name fits in 31 characters, the code's candidate is
the plain `preferred ++ "_" ++ str(counter)`. -/
theorem candidateSheetName_eq (p : String) (k : ℕ)
    (hfit : sheetNameFits p k) : candidateSheetName p k = sheetCand p k := by
  unfold candidateSheetName
  have hlen : (p ++ ("_" ++ natRepr k)).length ≤ 31 := by
    rw [String.length_append, String.length_append]
    have h1 : ("_" : String).length = 1 := rfl
    rw [h1]
    unfold sheetNameFits at hfit
    omega
  rw [if_neg (by omega : ¬31 < (p ++ ("_" ++ natRepr k)).length)]
  exact (stringAppend_assoc p "_" (natRepr k)).symm

/-- Candidates with counters `1 … k` are among the existing sheets. -/
theorem sheetCand_mem_existingSheets (p : String) {j k : ℕ} (h1 : 1 ≤ j)
    (h2 : j ≤ k) : sheetCand p j ∈ existingSheets p k := by
  unfold existingSheets
  refine List.mem_cons.mpr (Or.inr (List.mem_map.mpr ⟨j - 1, ?_, ?_⟩))
  · exact List.mem_range.mpr (by omega)
  · congr 1
    omega

/-- The candidate with counter `k + 1` is still free. -/
theorem sheetCand_succ_not_mem (p : String) (k : ℕ) :
    sheetCand p (k + 1) ∉ existingSheets p k := by
  unfold existingSheets
  intro h
  rcases List.mem_cons.mp h with h | h
  · exact sheetCand_ne_base p (k + 1) h
  · obtain ⟨i, hi, heq⟩ := List.mem_map.mp h
    have := sheetCand_inj p heq
    have := List.mem_range.mp hi
    omega

/-- In the identical-base scenario the collision search starting at any
counter `j ≤ k + 1` lands on the first free candidate `p_(k+1)`. -/
theorem uniqueSheetNameAux_scenario (p : String) (k : ℕ)
    (hfit : ∀ j, 1 ≤ j → j ≤ k + 1 → sheetNameFits p j) :
    ∀ fuel j, 1 ≤ j → j ≤ k + 1 → k + 2 - j ≤ fuel →
      uniqueSheetNameAux (existingSheets p k) p j fuel =
        sheetCand p (k + 1) := by
  intro fuel
  induction fuel with
  | zero =>
    intro j h1 h2 h3
    omega
  | succ fuel ih =>
    intro j h1 h2 h3
    show (if candidateSheetName p j ∈ existingSheets p k then
        uniqueSheetNameAux (existingSheets p k) p (j + 1) fuel
      else candidateSheetName p j) = sheetCand p (k + 1)
    rw [candidateSheetName_eq p j (hfit j h1 h2)]
    rcases Nat.lt_or_ge j (k + 1) with hlt | hge
    · rw [if_pos (sheetCand_mem_existingSheets p h1 (by omega))]
      exact ih (j + 1) (by omega) (by omega) (by omega)
    · have hj : j = k + 1 := by omega
      subst hj
      rw [if_neg (sheetCand_succ_not_mem p k)]

/-- In the identical-base scenario `_get_unique_sheet_name` yields
`p_(k+1)`. -/
theorem getUniqueSheetName_scenario (p : String) (k : ℕ)
    (hfit : ∀ j, 1 ≤ j → j ≤ k + 1 → sheetNameFits p j) :
    getUniqueSheetName (existingSheets p k) p = sheetCand p (k + 1) := by
  unfold getUniqueSheetName
  rw [if_pos (by unfold existingSheets; exact List.mem_cons_self p _)]
  refine uniqueSheetNameAux_scenario p k hfit _ 1 le_rfl (by omega) ?_
  have hlen : (existingSheets p k).length = k + 1 := by
    unfold existingSheets
    simp
  omega

/-- Appending the next assigned name extends the scenario state. -/
theorem existingSheets_snoc (p : String) (k : ℕ) :
    existingSheets p k ++ [sheetCand p (k + 1)] = existingSheets p (k + 1) := by
  unfold existingSheets
  rw [List.range_succ, List.map_append]
  rfl

/-- Closed form of the assignment loop on identical base names, starting
from the scenario state after `k + 1` records. -/
theorem assignSheetNamesAux_scenario (base : String) :
    ∀ (m k : ℕ),
      (∀ j, 1 ≤ j → j ≤ k + m → sheetNameFits (sanitizeSheetName base) j) →
      assignSheetNamesAux (existingSheets (sanitizeSheetName base) k)
          (List.replicate m base) =
        (List.range m).map
          (fun i => sheetCand (sanitizeSheetName base) (k + 1 + i)) := by
  intro m
  induction m with
  | zero =>
    intro k _
    rfl
  | succ m ih =>
    intro k hfit
    rw [List.replicate_succ]
    show getUniqueSheetName (existingSheets (sanitizeSheetName base) k)
          (sanitizeSheetName base) ::
        assignSheetNamesAux (existingSheets (sanitizeSheetName base) k ++
          [getUniqueSheetName (existingSheets (sanitizeSheetName base) k)
            (sanitizeSheetName base)]) (List.replicate m base) =
      (List.range (m + 1)).map
        (fun i => sheetCand (sanitizeSheetName base) (k + 1 + i))
    have hstep := getUniqueSheetName_scenario (sanitizeSheetName base) k
      (fun j h1 h2 => hfit j h1 (by omega))
    rw [hstep, existingSheets_snoc,
      ih (k + 1) (fun j h1 h2 => hfit j h1 (by omega)),
      List.range_succ_eq_map]
    simp only [List.map_cons, List.map_map, Function.comp]
    refine congrArg₂ List.cons (congrArg _ (by omega)) ?_
    refine List.map_congr_left fun i _ => congrArg _ (by omega)

/-- C9: for `n ≥ 1` records sharing one base sheet name (whose sanitized
form plus numeric suffix fits the 31-character limit), multi-record
composition deterministically assigns the names
`p, p_1, p_2, …, p_(n-1)` — pairwise distinct and each at most 31
characters long. -/
theorem C9_sheet_name_collision (base : String) (n : ℕ) (hn : 1 ≤ n)
    (hfit : ∀ j, 1 ≤ j → j ≤ n → sheetNameFits (sanitizeSheetName base) j) :
    assignSheetNames (List.replicate n base) =
        sanitizeSheetName base ::
          (List.range (n - 1)).map
            (fun i => sheetCand (sanitizeSheetName base) (i + 1)) ∧
      (assignSheetNames (List.replicate n base)).Nodup ∧
      ∀ s ∈ assignSheetNames (List.replicate n base), s.length ≤ 31 := by
  obtain ⟨m, rfl⟩ : ∃ m, n = m + 1 := ⟨n - 1, by omega⟩
  have hclosed : assignSheetNames (List.replicate (m + 1) base) =
      sanitizeSheetName base ::
        (List.range m).map
          (fun i => sheetCand (sanitizeSheetName base) (i + 1)) := by
    unfold assignSheetNames
    rw [List.replicate_succ]
    show getUniqueSheetName [] (sanitizeSheetName base) ::
        assignSheetNamesAux
          ([] ++ [getUniqueSheetName [] (sanitizeSheetName base)])
          (List.replicate m base) = _
    have h0 : getUniqueSheetName [] (sanitizeSheetName base) =
        sanitizeSheetName base := by
      unfold getUniqueSheetName
      rw [if_neg (List.not_mem_nil _)]
    rw [h0]
    have h1 : ([] ++ [sanitizeSheetName base] : List String) =
        existingSheets (sanitizeSheetName base) 0 := by
      unfold existingSheets
      simp
    rw [h1, assignSheetNamesAux_scenario base m 0
      (fun j hj1 hj2 => hfit j hj1 (by omega))]
    refine congrArg _ (List.map_congr_left fun i _ => congrArg _ (by omega))
  refine ⟨hclosed, ?_, ?_⟩
  · rw [hclosed]
    refine List.nodup_cons.mpr ⟨?_, ?_⟩
    · intro hmem
      obtain ⟨i, _, heq⟩ := List.mem_map.mp hmem
      exact sheetCand_ne_base _ (i + 1) heq
    · refine List.Nodup.map ?_ (List.nodup_range m)
      intro x y hxy
      have := sheetCand_inj (sanitizeSheetName base) hxy
      omega
  · rw [hclosed]
    intro s hs
    rcases List.mem_cons.mp hs with rfl | hs
    · have hf1 := hfit 1 le_rfl (by omega)
      unfold sheetNameFits at hf1
      have := natRepr_length_pos 1
      omega
    · obtain ⟨i, hi, rfl⟩ := List.mem_map.mp hs
      rw [sheetCand_length]
      exact hfit (i + 1) (by omega) (by have := List.mem_range.mp hi; omega)

/-- Witness for C9: three employees all named 未分配 get the three
distinct sheet names 未分配, 未分配_1, 未分配_2. -/
theorem C9_sheet_name_collision_witness :
    assignSheetNames (List.replicate 3 "未分配") =
        ["未分配", "未分配_1", "未分配_2"] ∧
      (assignSheetNames (List.replicate 3 "未分配")).Nodup ∧
      ∀ s ∈ assignSheetNames (List.replicate 3 "未分配"), s.length ≤ 31 := by
  have hd : ∀ j, j ≤ 3 → 1 ≤ j →
      sheetNameFits (sanitizeSheetName "未分配") j := by decide
  have h := C9_sheet_name_collision "未分配" 3 (by omega)
    (fun j h1 h2 => hd j h2 h1)
  exact ⟨h.1.trans (by decide), h.2.1, h.2.2⟩

end ExcelProcess
